import Mathlib

/-!
# PhotoApp — verification of the command-line photo catalog

Shallow embedding of `src/main.py`: a command-line application storing
image assets in an S3 bucket and metadata (users, assets) in a MySQL
database.  The handlers (`stats`, `users`, `assets`, `download`,
`upload`, `adduser`) and the main dispatch loop are embedded as pure
Lean functions over explicit environments that carry the responses of
the external services (database, object storage, filesystem, stdin).

The repository modules `datatier` and `awsutil` are not part of the
sources here; their contracts are modelled from the specification
(§4.2, §4.3): the data-access wrapper returns a tri-state result
(absent value on execution failure, empty marker when no row matched,
or the payload), and the storage wrapper uploads/downloads single
objects synchronously.
-/

namespace PhotoApp

/-- Modelled from the spec: tri-state result of the data-access wrapper
`datatier` (not under src/): `absent` is the absent-value sentinel
returned on execution failure (`None` in Python), `empty` the
empty-result marker when no row matched (`()`), and `row` carries the
payload. -/
inductive DBResult (α : Type) where
  | absent : DBResult α
  | empty : DBResult α
  | row : α → DBResult α
deriving DecidableEq, Repr

/-- A row of the `users` table: `users(userid, email, lastname,
firstname, bucketfolder)`. -/
structure UserRow where
  userid : Int
  email : String
  lastname : String
  firstname : String
  bucketfolder : String
deriving DecidableEq, Repr

/-- A row of the `assets` table: `assets(assetid, userid, assetname,
bucketkey)`. -/
structure AssetRow where
  assetid : Int
  userid : Int
  assetname : String
  bucketkey : String
deriving DecidableEq, Repr

/-- The state of the relational database: the two tables. -/
structure DBState where
  users : List UserRow
  assets : List AssetRow
deriving DecidableEq, Repr

/-- An external call made by a handler, either to the object storage
(S3) or to the database. -/
inductive Call where
  | s3Upload (localName key : String)
  | s3Download (key : String)
  | queryUser (id : Int)
  | queryAsset (id : Int)
  | queryAllUsers
  | queryAllAssets
  | queryCounts
  | queryLastId
  | insertAsset (userid : Int) (assetname bucketkey : String)
  | insertUser (email lastname firstname folder : String)
deriving DecidableEq, Repr

/-- Whether a call goes to the object storage. -/
def Call.isStorage : Call → Bool
  | .s3Upload _ _ => true
  | .s3Download _ => true
  | _ => false

/-- Whether a call goes to the database. -/
def Call.isDb : Call → Bool
  | .s3Upload _ _ => false
  | .s3Download _ => false
  | _ => true

/-- How a handler invocation ends: `normal` returns to the command
loop, `aborted` is `os.abort()` (the whole process dies), `exception`
is an uncaught Python exception (the whole process dies). -/
inductive Outcome where
  | normal
  | aborted
  | exception
deriving DecidableEq, Repr

/-- Result of running one handler: the lines it printed, the external
calls it made (in order), and how it ended. -/
structure HandlerResult where
  log : List String
  calls : List Call
  outcome : Outcome
deriving DecidableEq, Repr

/-- `"Database operation failed..."` — printed on the absent-value
(hard failure) sentinel. -/
def msgDbFail : String := "Database operation failed..."

/-- `"Unexpected query failure..."` — printed by `stats`/`users`/`assets`
on the empty-result sentinel. -/
def msgQueryFail : String := "Unexpected query failure..."

/-- `"No such asset..."` — printed by `download` on the empty-result
sentinel. -/
def msgNoAsset : String := "No such asset..."

/-- `"No such user..."` — printed by `upload` when the user lookup
returns either sentinel. -/
def msgNoUser : String := "No such user..."

/-- `"** Unknown command, try again..."` — printed by the dispatch
loop's else-branch. -/
def msgUnknownCmd : String := "** Unknown command, try again..."

/-- Environment of one `upload` invocation: the two input lines, the
filesystem check, and the responses of the external calls the handler
makes.  `token` is the value of `str(uuid.uuid4())`, the freshly
generated 128-bit random token. -/
structure UploadEnv where
  localName : String
  fileExists : Bool
  userId : Int
  userLookup : DBResult UserRow
  token : String
  insertResult : Option Int
  lastIdLookup : DBResult Int
deriving DecidableEq, Repr

/-- The `upload` handler of `src/main.py` (lines 227–272): check the
local file exists (else print and `os.abort()`), look up the user by id
(on `None` or `()` print `No such user...` and `os.abort()`), build the
key `row1[4] + '/' + str(uuid.uuid4()) + '.jpg'`, upload to S3, insert
the asset row (result of `perform_action` never inspected), re-query
`LAST_INSERT_ID()` and print `row3[0]` — indexing raises when that
re-query returned a sentinel. -/
def upload (env : UploadEnv) : HandlerResult :=
  let log0 := ["Enter local file name>"]
  if env.fileExists = false then
    { log := log0 ++ ["Local file ' " ++ env.localName ++ " ' does not exist..."],
      calls := [], outcome := .aborted }
  else
    let log1 := log0 ++ ["Enter user id>"]
    match env.userLookup with
    | .absent =>
        { log := log1 ++ [msgNoUser], calls := [.queryUser env.userId],
          outcome := .aborted }
    | .empty =>
        { log := log1 ++ [msgNoUser], calls := [.queryUser env.userId],
          outcome := .aborted }
    | .row u =>
        let key := u.bucketfolder ++ "/" ++ env.token ++ ".jpg"
        let log2 := log1 ++ ["Uploaded and stored in S3 as ' " ++ key ++ " '"]
        let calls2 := [.queryUser env.userId, .s3Upload env.localName key,
                       .insertAsset env.userId env.localName key, .queryLastId]
        match env.lastIdLookup with
        | .row n =>
            { log := log2 ++ ["Recorded in RDS under asset id " ++ toString n],
              calls := calls2, outcome := .normal }
        | .absent => { log := log2, calls := calls2, outcome := .exception }
        | .empty => { log := log2, calls := calls2, outcome := .exception }

/-- Environment of one `adduser` invocation: the three input lines, the
generated folder token (`uuid.uuid4()`), and the responses of the two
database calls. -/
structure AddUserEnv where
  email : String
  lastname : String
  firstname : String
  folderToken : String
  insertResult : Option Int
  lastIdLookup : DBResult Int
deriving DecidableEq, Repr

/-- The `adduser` handler of `src/main.py` (lines 279–313): read email,
last name, first name, generate a folder token, insert the user row
(result of `perform_action` never inspected), re-query
`LAST_INSERT_ID()` and print `row2[0]` — indexing raises when that
re-query returned a sentinel.  (The printed label says "asset id"; that
is the source's own text.) -/
def adduser (env : AddUserEnv) : HandlerResult :=
  let log0 := ["Enter user's email>", "Enter user's last (family) name>",
               "Enter user's first (given) name>"]
  let calls := [Call.insertUser env.email env.lastname env.firstname env.folderToken,
                Call.queryLastId]
  match env.lastIdLookup with
  | .row n =>
      { log := log0 ++ ["Recorded in RDS under asset id " ++ toString n],
        calls := calls, outcome := .normal }
  | .absent => { log := log0, calls := calls, outcome := .exception }
  | .empty => { log := log0, calls := calls, outcome := .exception }

/-- The local filesystem of the current working directory, as an
association list from filename to file contents (most recent write
first). -/
abbrev FS := List (String × String)

/-- Look up a file by name. -/
def fsLookup (fs : FS) (name : String) : Option String :=
  (fs.find? (fun p => p.1 == name)).map (fun p => p.2)

/-- Remove a file by name. -/
def fsErase (fs : FS) (name : String) : FS :=
  fs.filter (fun p => ¬ p.1 == name)

/-- Write a file, silently replacing any existing file of that name. -/
def fsWrite (fs : FS) (name content : String) : FS :=
  (name, content) :: fsErase fs name

/-- `os.rename(src, dst)` (POSIX semantics, as used by `download`):
move the file at `src` to `dst`, silently replacing any existing file
named `dst`. -/
def osRename (fs : FS) (src dst : String) : FS :=
  match fsLookup fs src with
  | some c => fsWrite (fsErase fs src) dst c
  | none => fs

/-- Environment of one `download` invocation: the entered asset id, the
response of the asset lookup (`(bucketkey, assetname)` when a row
matched), whether to display, the temporary filename chosen by
`awsutil.download_file`, and the bytes of the S3 object. -/
structure DownloadEnv where
  assetId : Int
  assetLookup : DBResult (String × String)
  display : Bool
  tempName : String
  objectContent : String
deriving DecidableEq, Repr

/-- The `download` handler of `src/main.py` (lines 186–221): look up
`bucketkey, assetname` by asset id; on the absent sentinel print
`Database operation failed...`, on the empty sentinel print
`No such asset...` (no storage call either way); otherwise download the
object to a temporary file, `os.rename` it to the original asset name
(silently replacing an existing file), print, and optionally display. -/
def download (env : DownloadEnv) (fs : FS) : HandlerResult × FS :=
  let log0 := ["Enter asset id>"]
  match env.assetLookup with
  | .absent =>
      ({ log := log0 ++ [msgDbFail], calls := [.queryAsset env.assetId],
         outcome := .normal }, fs)
  | .empty =>
      ({ log := log0 ++ [msgNoAsset], calls := [.queryAsset env.assetId],
         outcome := .normal }, fs)
  | .row kv =>
      let fs1 := fsWrite fs env.tempName env.objectContent
      let fs2 := osRename fs1 env.tempName kv.2
      ({ log := log0 ++ ["Downloaded from S3 and saved as ' " ++ kv.2 ++ " '"],
         calls := [.queryAsset env.assetId, .s3Download kv.1],
         outcome := .normal }, fs2)

/-- The `users` handler of `src/main.py` (lines 112–142), applied to
the response of `retrieve_all_rows` for
`select * from users order by userid desc`. -/
def users (res : DBResult (List UserRow)) : HandlerResult :=
  match res with
  | .absent => { log := [msgDbFail], calls := [.queryAllUsers], outcome := .normal }
  | .empty => { log := [msgQueryFail], calls := [.queryAllUsers], outcome := .normal }
  | .row rows =>
      { log := (rows.map (fun u =>
          ["User id: " ++ toString u.userid,
           "  Email: " ++ u.email,
           "  Name: " ++ u.lastname ++ " , " ++ u.firstname,
           "  Folder: " ++ u.bucketfolder])).flatten,
        calls := [.queryAllUsers], outcome := .normal }

/-- The `assets` handler of `src/main.py` (lines 148–179), applied to
the response of `retrieve_all_rows` for
`select * from assets order by assetid desc`. -/
def assets (res : DBResult (List AssetRow)) : HandlerResult :=
  match res with
  | .absent => { log := [msgDbFail], calls := [.queryAllAssets], outcome := .normal }
  | .empty => { log := [msgQueryFail], calls := [.queryAllAssets], outcome := .normal }
  | .row rows =>
      { log := (rows.map (fun a =>
          ["Asset id: " ++ toString a.assetid,
           "  User id: " ++ toString a.userid,
           "  Original name: " ++ a.assetname,
           "  Key name: " ++ a.bucketkey])).flatten,
        calls := [.queryAllAssets], outcome := .normal }

/-- The `stats` handler of `src/main.py` (lines 64–106): bucket info,
endpoint, then the user/asset counts from `retrieve_one_row`. -/
def stats (bucketname endpoint : String) (numObjects : Nat)
    (res : DBResult (Int × Int)) : HandlerResult :=
  let log0 := ["S3 bucket name: " ++ bucketname,
               "S3 assets: " ++ toString numObjects,
               "RDS MySQL endpoint: " ++ endpoint]
  match res with
  | .absent => { log := log0 ++ [msgDbFail], calls := [.queryCounts], outcome := .normal }
  | .empty => { log := log0 ++ [msgQueryFail], calls := [.queryCounts], outcome := .normal }
  | .row c =>
      { log := log0 ++ ["# of users: " ++ toString c.1, "# of assets: " ++ toString c.2],
        calls := [.queryCounts], outcome := .normal }

/-- Insert an element into a list kept in descending order of `key`
(the order `ORDER BY ... DESC` produces). -/
def insertDescBy {α : Type} (key : α → Int) (x : α) : List α → List α
  | [] => [x]
  | y :: ys => if key y ≤ key x then x :: y :: ys else y :: insertDescBy key x ys

/-- Sort a list into descending order of `key`: the row order MySQL
returns for `ORDER BY key DESC`. -/
def sortDescBy {α : Type} (key : α → Int) : List α → List α
  | [] => []
  | x :: xs => insertDescBy key x (sortDescBy key xs)

/-- Modelled from the spec: `datatier.retrieve_one_row` (not under
src/) for `select * from users where userid = %s` against database
state `db`; `healthy` is false when the query execution fails. -/
def retrieve_one_row_user (healthy : Bool) (db : DBState) (id : Int) :
    DBResult UserRow :=
  if healthy then
    match db.users.find? (fun u => u.userid == id) with
    | some u => .row u
    | none => .empty
  else .absent

/-- Modelled from the spec: `datatier.retrieve_one_row` (not under
src/) for `select bucketkey, assetname from assets where assetid = %s`. -/
def retrieve_one_row_asset (healthy : Bool) (db : DBState) (id : Int) :
    DBResult (String × String) :=
  if healthy then
    match db.assets.find? (fun a => a.assetid == id) with
    | some a => .row (a.bucketkey, a.assetname)
    | none => .empty
  else .absent

/-- Modelled from the spec: `datatier.retrieve_all_rows` (not under
src/) for `select * from users order by userid desc`: absent value on
execution failure, empty marker when no row matched, otherwise the rows
in descending order of `userid`. -/
def retrieve_all_rows_users (healthy : Bool) (db : DBState) :
    DBResult (List UserRow) :=
  if healthy then
    if db.users.isEmpty then .empty
    else .row (sortDescBy (fun u => u.userid) db.users)
  else .absent

/-- Modelled from the spec: `datatier.retrieve_all_rows` (not under
src/) for `select * from assets order by assetid desc`. -/
def retrieve_all_rows_assets (healthy : Bool) (db : DBState) :
    DBResult (List AssetRow) :=
  if healthy then
    if db.assets.isEmpty then .empty
    else .row (sortDescBy (fun a => a.assetid) db.assets)
  else .absent

/-- The user rows the `users` handler iterates over (empty on either
sentinel), in the order it prints them. -/
def usersListedRows (healthy : Bool) (db : DBState) : List UserRow :=
  match retrieve_all_rows_users healthy db with
  | .row rows => rows
  | _ => []

/-- The asset rows the `assets` handler iterates over, in the order it
prints them. -/
def assetsListedRows (healthy : Bool) (db : DBState) : List AssetRow :=
  match retrieve_all_rows_assets healthy db with
  | .row rows => rows
  | _ => []

/-- The seven numbered handlers of the dispatch loop. -/
inductive Handler where
  | stats
  | users
  | assets
  | download
  | downloadDisplay
  | upload
  | adduser
deriving DecidableEq, Repr

/-- The if/elif chain of the main loop (`src/main.py` lines 382–396):
which handler a command number selects, `none` when the else-branch
(unknown command) is taken. -/
def selectHandler (cmd : Int) : Option Handler :=
  if cmd = 1 then some .stats
  else if cmd = 2 then some .users
  else if cmd = 3 then some .assets
  else if cmd = 4 then some .download
  else if cmd = 5 then some .downloadDisplay
  else if cmd = 6 then some .upload
  else if cmd = 7 then some .adduser
  else none

/-- States of the command dispatcher. -/
inductive LoopState where
  | awaiting
  | running (cmd : Int)
  | terminated
deriving DecidableEq, Repr

/-- One dispatch step on reading command number `cmd` in the awaiting
state: `0` ends the loop (the `while cmd != 0` guard), a recognized
command number enters the corresponding handler, anything else stays
awaiting after the unknown-command message. -/
def step (st : LoopState) (cmd : Int) : LoopState :=
  match st with
  | .awaiting =>
      if cmd = 0 then .terminated
      else if (selectHandler cmd).isSome then .running cmd
      else .awaiting
  | s => s

/-- Handler completion: control returns to the top of the loop. -/
def completeHandler : LoopState → LoopState
  | .running _ => .awaiting
  | s => s

/-- What the loop body does with a command number. -/
inductive BodyAction where
  | runs (h : Handler)
  | unknown (r : HandlerResult)
  | exits
deriving DecidableEq, Repr

/-- The else-branch of the dispatch: prints one line, makes no storage
or database call, and continues. -/
def unknownCmdResult : HandlerResult :=
  { log := [msgUnknownCmd], calls := [], outcome := .normal }

/-- The body of the main loop for command number `cmd`. -/
def dispatchBody (cmd : Int) : BodyAction :=
  if cmd = 0 then .exits
  else
    match selectHandler cmd with
    | some h => .runs h
    | none => .unknown unknownCmdResult

/-- ASCII whitespace stripped from both ends by Python's `int(str)`. -/
def isPySpace (c : Char) : Bool :=
  c = ' ' || c = '\t' || c = '\n' || c = '\r' || c = '\x0b' || c = '\x0c'

/-- After the leading digit of a Python integer literal: digits with
single underscores allowed between digits. -/
def pyDigitTail : List Char → Bool
  | [] => true
  | '_' :: c :: rest => c.isDigit && pyDigitTail rest
  | '_' :: [] => false
  | c :: rest => c.isDigit && pyDigitTail rest

/-- Body of a Python base-10 integer literal: nonempty, leading digit. -/
def pyIntDigits : List Char → Bool
  | [] => false
  | c :: rest => c.isDigit && pyDigitTail rest

/-- Decimal value of a digit string, ignoring underscores. -/
def digitsVal (cs : List Char) : Nat :=
  cs.foldl (fun acc c => if c = '_' then acc else acc * 10 + (c.toNat - 48)) 0

/-- Model of Python's `int(string)`: strip whitespace, optional sign,
then a nonempty run of decimal digits (underscores allowed between
digits); `none` models the `ValueError` raised otherwise. -/
def pyInt (s : String) : Option Int :=
  let cs := ((s.toList.dropWhile isPySpace).reverse.dropWhile isPySpace).reverse
  match cs with
  | '+' :: rest => if pyIntDigits rest then some (Int.ofNat (digitsVal rest)) else none
  | '-' :: rest => if pyIntDigits rest then some (-(Int.ofNat (digitsVal rest))) else none
  | rest => if pyIntDigits rest then some (Int.ofNat (digitsVal rest)) else none

/-- `prompt` (`src/main.py` lines 33–57): prints the menu and runs
`cmd = int(input())`; a line that does not parse as an integer raises
`ValueError`, which no caller catches. -/
def prompt (line : String) : Except String Int :=
  match pyInt line with
  | some n => .ok n
  | none => .error "ValueError"

/-- One awaiting-command iteration of the process on one input line:
`.error` means the process terminates with the uncaught exception from
`prompt`; `.ok` carries the dispatcher state after the command is
dispatched. -/
def loopIteration (line : String) : Except String LoopState :=
  (prompt line).map (step .awaiting)

/-! ## Concrete sample data (used by witnesses) -/

/-- A sample user row. -/
def sampleUser : UserRow := ⟨7, "a@b.com", "Doe", "Jane", "folder7"⟩

/-- A second sample user row, smaller id, listed before `sampleUser`
in table order. -/
def sampleUser2 : UserRow := ⟨3, "c@d.com", "Roe", "Riley", "folder3"⟩

/-- A sample asset row owned by `sampleUser`. -/
def sampleAsset : AssetRow := ⟨11, 7, "pic.jpg", "folder7/abc.jpg"⟩

/-- A second sample asset row. -/
def sampleAsset2 : AssetRow := ⟨5, 7, "photo.jpg", "folder7/def.jpg"⟩

/-- A sample database state. -/
def sampleDB : DBState := ⟨[sampleUser2, sampleUser], [sampleAsset2, sampleAsset]⟩

/-- Upload environment: the entered local path does not exist. -/
def envNoFile : UploadEnv := ⟨"/tmp/nope.jpg", false, 7, .empty, "tok", none, .empty⟩

/-- Upload environment: file exists, user lookup hits the empty-result
sentinel. -/
def envUpEmpty : UploadEnv := ⟨"pic.jpg", true, 99, .empty, "tok", none, .empty⟩

/-- Upload environment: file exists, user lookup hits the absent-value
sentinel. -/
def envUpAbsent : UploadEnv := ⟨"pic.jpg", true, 99, .absent, "tok", none, .empty⟩

/-- Upload environment: a fully successful upload for `sampleUser`. -/
def envGoodUpload : UploadEnv :=
  ⟨"pic2.jpg", true, 7, retrieve_one_row_user true sampleDB 7, "tok", some 1, .row 12⟩

/-- Download environment: asset id 999, absent from `sampleDB`. -/
def envMissingAsset : DownloadEnv :=
  ⟨999, retrieve_one_row_asset true sampleDB 999, false, "tmpfile", "bytes"⟩

/-- Download environment whose lookup returned the empty sentinel. -/
def envDlEmpty : DownloadEnv := ⟨999, .empty, false, "tmpfile", "bytes"⟩

/-- Download environment whose lookup returned the absent sentinel. -/
def envDlAbsent : DownloadEnv := ⟨999, .absent, false, "tmpfile", "bytes"⟩

/-- First successful download of an asset named `photo.jpg`. -/
def envDl1 : DownloadEnv := ⟨5, .row ("folder7/def.jpg", "photo.jpg"), false, "tmp1", "NEW1"⟩

/-- Second successful download of a different asset with the same
original name `photo.jpg`. -/
def envDl2 : DownloadEnv := ⟨6, .row ("folder9/x.jpg", "photo.jpg"), false, "tmp2", "NEW2"⟩

/-- Starting filesystem: `photo.jpg` already exists with old content. -/
def fsStart : FS := [("photo.jpg", "OLD")]

/-! ## Helper lemmas about the descending sort -/

theorem mem_insertDescBy {α : Type} (key : α → Int) (x z : α) (l : List α) :
    z ∈ insertDescBy key x l ↔ z = x ∨ z ∈ l := by
  induction l with
  | nil => simp [insertDescBy]
  | cons y ys ih =>
    rw [insertDescBy]
    by_cases h : key y ≤ key x
    · rw [if_pos h]
      simp [List.mem_cons]
    · rw [if_neg h]
      simp [List.mem_cons, ih]
      tauto

theorem pairwise_insertDescBy {α : Type} (key : α → Int) (x : α) (l : List α)
    (hl : l.Pairwise (fun a b => key b ≤ key a)) :
    (insertDescBy key x l).Pairwise (fun a b => key b ≤ key a) := by
  induction l with
  | nil => simp [insertDescBy]
  | cons y ys ih =>
    rw [insertDescBy]
    rcases List.pairwise_cons.mp hl with ⟨hy, hys⟩
    by_cases h : key y ≤ key x
    · rw [if_pos h]
      refine List.pairwise_cons.mpr ⟨?_, hl⟩
      intro z hz
      rcases List.mem_cons.mp hz with rfl | hz'
      · exact h
      · exact le_trans (hy z hz') h
    · rw [if_neg h]
      refine List.pairwise_cons.mpr ⟨?_, ih hys⟩
      intro z hz
      rcases (mem_insertDescBy key x z ys).mp hz with rfl | hz'
      · exact le_of_not_le h
      · exact hy z hz'

theorem pairwise_sortDescBy {α : Type} (key : α → Int) (l : List α) :
    (sortDescBy key l).Pairwise (fun a b => key b ≤ key a) := by
  induction l with
  | nil => simp [sortDescBy]
  | cons x xs ih => exact pairwise_insertDescBy key x _ ih

theorem perm_insertDescBy {α : Type} (key : α → Int) (x : α) (l : List α) :
    List.Perm (insertDescBy key x l) (x :: l) := by
  induction l with
  | nil => exact .refl _
  | cons y ys ih =>
    rw [insertDescBy]
    by_cases h : key y ≤ key x
    · rw [if_pos h]
    · rw [if_neg h]
      exact (ih.cons y).trans (List.Perm.swap x y ys)

theorem perm_sortDescBy {α : Type} (key : α → Int) (l : List α) :
    List.Perm (sortDescBy key l) l := by
  induction l with
  | nil => exact .refl _
  | cons x xs ih => exact (perm_insertDescBy key x _).trans (ih.cons x)

theorem chain_gt_sortDescBy {α : Type} (key : α → Int) (l : List α)
    (hnd : (l.map key).Nodup) :
    ((sortDescBy key l).map key).Chain' (fun a b => b < a) := by
  have hperm : List.Perm ((sortDescBy key l).map key) (l.map key) :=
    (perm_sortDescBy key l).map key
  have hnd' : ((sortDescBy key l).map key).Nodup := hperm.symm.nodup hnd
  have hp : ((sortDescBy key l).map key).Pairwise (fun a b => b ≤ a) :=
    List.pairwise_map.mpr (pairwise_sortDescBy key l)
  have hgt : ((sortDescBy key l).map key).Pairwise (fun a b => b < a) :=
    (hp.and hnd').imp (fun h => lt_of_le_of_ne h.1 (Ne.symm h.2))
  exact hgt.chain'

/-! ## Helper lemmas about the handlers -/

/-- On the success path (file exists, user row found), the external
calls of `upload` are the user lookup, the S3 put, the row insert and
the last-insert-id re-query, whatever the last two return. -/
theorem upload_calls_of_row (e : UploadEnv) (u : UserRow)
    (hf : e.fileExists = true) (hu : e.userLookup = .row u) :
    (upload e).calls = [.queryUser e.userId,
      .s3Upload e.localName (u.bucketfolder ++ "/" ++ e.token ++ ".jpg"),
      .insertAsset e.userId e.localName (u.bucketfolder ++ "/" ++ e.token ++ ".jpg"),
      .queryLastId] := by
  cases hl : e.lastIdLookup <;> simp [upload, hf, hu, hl]

/-- Writing a file makes it the one `fsLookup` finds. -/
theorem fsLookup_fsWrite (fs : FS) (name content : String) :
    fsLookup (fsWrite fs name content) name = some content := by
  simp [fsLookup, fsWrite]

/-- Renaming a just-written temporary file onto `n` leaves the written
content at `n`, whatever was there before. -/
theorem osRename_after_write (fs : FS) (t n c : String) :
    fsLookup (osRename (fsWrite fs t c) t n) n = some c := by
  rw [osRename, fsLookup_fsWrite]
  exact fsLookup_fsWrite _ n c

/-! ## Claims -/

/-- C6: for every database state (with the unique identifiers the
schema guarantees), the `users` listing outputs user rows in strictly
descending order of user id and the `assets` listing outputs asset
rows in strictly descending order of asset id. -/
theorem users_assets_listings_strictly_descending (db : DBState)
    (hu : (db.users.map (fun u => u.userid)).Nodup)
    (ha : (db.assets.map (fun a => a.assetid)).Nodup) :
    ((usersListedRows true db).map (fun u => u.userid)).Chain' (· > ·) ∧
    ((assetsListedRows true db).map (fun a => a.assetid)).Chain' (· > ·) := by
  constructor
  · by_cases h : db.users.isEmpty
    · simp [usersListedRows, retrieve_all_rows_users, h]
    · simpa [usersListedRows, retrieve_all_rows_users, h] using
        chain_gt_sortDescBy (fun u => u.userid) db.users hu
  · by_cases h : db.assets.isEmpty
    · simp [assetsListedRows, retrieve_all_rows_assets, h]
    · simpa [assetsListedRows, retrieve_all_rows_assets, h] using
        chain_gt_sortDescBy (fun a => a.assetid) db.assets ha

/-- C6 witness: the concrete sample database, whose tables are stored
out of order, is listed strictly descending by id. -/
theorem users_assets_listings_strictly_descending_witness :
    ((usersListedRows true sampleDB).map (fun u => u.userid)).Chain' (· > ·) ∧
    ((assetsListedRows true sampleDB).map (fun a => a.assetid)).Chain' (· > ·) :=
  users_assets_listings_strictly_descending sampleDB (by decide) (by decide)

/-- C1 counterexample: in the `upload` handler the empty-result
sentinel and the absent-value sentinel from the user lookup produce
identical printed output (the same `No such user...` lines), so
not-found is not distinguished from hard failure at this handler's
output. -/
theorem upload_conflates_sentinel_messages :
    (upload envUpEmpty).log = (upload envUpAbsent).log ∧
    msgNoUser ∈ (upload envUpEmpty).log := by
  constructor
  · rfl
  · simp [upload, envUpEmpty]

/-- C1 amended: the `users`, `assets`, `stats` and `download` handlers
print a message for the empty-result sentinel that differs from the
absent-value message, but the `upload` handler prints the same
`No such user...` output for both sentinels. -/
theorem sentinel_messages_distinct_except_upload :
    ((users .empty).log ≠ (users .absent).log) ∧
    ((assets .empty).log ≠ (assets .absent).log) ∧
    (∀ b ep no, (stats b ep no .empty).log ≠ (stats b ep no .absent).log) ∧
    (∀ (e1 e2 : DownloadEnv) (fs1 fs2 : FS),
      e1.assetLookup = .empty → e2.assetLookup = .absent →
      (download e1 fs1).1.log ≠ (download e2 fs2).1.log) ∧
    (∀ (e1 e2 : UploadEnv),
      e1.fileExists = true → e2.fileExists = true →
      e1.userLookup = .empty → e2.userLookup = .absent →
      (upload e1).log = (upload e2).log) := by
  refine ⟨by decide, by decide, ?_, ?_, ?_⟩
  · intro b ep no h
    simp only [stats] at h
    have h' := List.append_cancel_left h
    exact absurd h' (by decide)
  · intro e1 e2 fs1 fs2 h1 h2
    simp [download, h1, h2, msgNoAsset, msgDbFail]
  · intro e1 e2 hf1 hf2 hu1 hu2
    simp [upload, hf1, hf2, hu1, hu2]

/-- C1-amended witness at concrete environments. -/
theorem sentinel_messages_distinct_except_upload_witness :
    ((download envDlEmpty fsStart).1.log ≠ (download envDlAbsent fsStart).1.log) ∧
    ((upload envUpEmpty).log = (upload envUpAbsent).log) :=
  ⟨sentinel_messages_distinct_except_upload.2.2.2.1 envDlEmpty envDlAbsent
      fsStart fsStart rfl rfl,
   sentinel_messages_distinct_except_upload.2.2.2.2 envUpEmpty envUpAbsent
      rfl rfl rfl rfl⟩

/-- C2: if the entered local path does not exist, `upload` reports it,
makes no storage and no database call, and aborts the whole process;
if the user lookup returns the empty-result sentinel, `upload` reports
`No such user...` and aborts the whole process (its only call was the
user lookup). -/
theorem upload_invalid_input_aborts_process (e : UploadEnv) :
    (e.fileExists = false →
      (upload e).outcome = .aborted ∧ (upload e).calls = [] ∧
      (upload e).log = ["Enter local file name>",
        "Local file ' " ++ e.localName ++ " ' does not exist..."]) ∧
    (e.fileExists = true → e.userLookup = .empty →
      (upload e).outcome = .aborted ∧ (upload e).calls = [.queryUser e.userId] ∧
      msgNoUser ∈ (upload e).log) := by
  constructor
  · intro h
    simp [upload, h]
  · intro h1 h2
    simp [upload, h1, h2]

/-- C2 witness: the missing-file and missing-user scenarios at
concrete environments. -/
theorem upload_invalid_input_aborts_process_witness :
    ((upload envNoFile).outcome = .aborted ∧ (upload envNoFile).calls = [] ∧
      (upload envNoFile).log = ["Enter local file name>",
        "Local file ' " ++ envNoFile.localName ++ " ' does not exist..."]) ∧
    ((upload envUpEmpty).outcome = .aborted ∧
      (upload envUpEmpty).calls = [.queryUser envUpEmpty.userId] ∧
      msgNoUser ∈ (upload envUpEmpty).log) :=
  ⟨(upload_invalid_input_aborts_process envNoFile).1 rfl,
   (upload_invalid_input_aborts_process envUpEmpty).2 rfl rfl⟩

/-- C3: for every asset id absent from the assets table, `download`
prints `No such asset...`, performs zero object-storage calls, and
leaves the filesystem untouched (nothing downloaded, renamed or
displayed). -/
theorem download_missing_asset_no_storage_calls (db : DBState) (A : Int)
    (e : DownloadEnv) (fs : FS)
    (hlook : e.assetLookup = retrieve_one_row_asset true db A)
    (habs : ∀ a ∈ db.assets, a.assetid ≠ A) :
    (download e fs).1.log = ["Enter asset id>", msgNoAsset] ∧
    ((download e fs).1.calls.filter Call.isStorage) = [] ∧
    (download e fs).2 = fs := by
  have hfind : db.assets.find? (fun a => a.assetid == A) = none := by
    rw [List.find?_eq_none]
    intro a hamem
    simpa using habs a hamem
  have hempty : e.assetLookup = .empty := by
    rw [hlook, retrieve_one_row_asset]
    simp [hfind]
  simp [download, hempty, Call.isStorage]

/-- C3 witness: asset id 999 is absent from the sample database. -/
theorem download_missing_asset_no_storage_calls_witness :
    (download envMissingAsset fsStart).1.log = ["Enter asset id>", msgNoAsset] ∧
    ((download envMissingAsset fsStart).1.calls.filter Call.isStorage) = [] ∧
    (download envMissingAsset fsStart).2 = fsStart :=
  download_missing_asset_no_storage_calls sampleDB 999 envMissingAsset fsStart
    rfl (by decide)

/-- C4: `upload` reaches the insert statement only after the user
lookup returned a populated row, and the inserted asset row's owning
user id is the entered id, which at that moment references an existing
row of the users table. -/
theorem upload_insert_requires_existing_user (db : DBState) (e : UploadEnv)
    (hlook : e.userLookup = retrieve_one_row_user true db e.userId) :
    ∀ uid an bk, Call.insertAsset uid an bk ∈ (upload e).calls →
      (∃ u, e.userLookup = .row u) ∧ uid = e.userId ∧
      ∃ u ∈ db.users, u.userid = e.userId := by
  intro uid an bk hmem
  by_cases hf : e.fileExists = false
  · simp [upload, hf] at hmem
  · have hf' : e.fileExists = true := by
      cases h : e.fileExists
      · exact absurd h hf
      · rfl
    cases hu : e.userLookup with
    | absent => simp [upload, hf', hu] at hmem
    | empty => simp [upload, hf', hu] at hmem
    | row u =>
      rw [upload_calls_of_row e u hf' hu] at hmem
      have huid : uid = e.userId := by
        simp at hmem
        exact hmem.1
      have hrow : retrieve_one_row_user true db e.userId = .row u :=
        hlook.symm.trans hu
      simp only [retrieve_one_row_user, if_true] at hrow
      cases hfind : db.users.find? (fun x => x.userid == e.userId) with
      | none =>
          rw [hfind] at hrow
          exact absurd hrow (by simp)
      | some v =>
          rw [hfind] at hrow
          have hv : v = u := by
            cases hrow
            rfl
          subst hv
          refine ⟨⟨v, rfl⟩, huid, v, List.mem_of_find?_eq_some hfind, ?_⟩
          have := List.find?_some hfind
          simpa using this

/-- C4 witness: a successful upload into the sample database. -/
theorem upload_insert_requires_existing_user_witness :
    (∃ u, envGoodUpload.userLookup = .row u) ∧ 7 = envGoodUpload.userId ∧
    ∃ u ∈ sampleDB.users, u.userid = envGoodUpload.userId :=
  upload_insert_requires_existing_user sampleDB envGoodUpload rfl
    7 "pic2.jpg" "folder7/tok.jpg" (by decide)

/-- C5: on a successful upload the storage key is the owning user's
folder identifier, a slash, the generated token (the value of
`str(uuid.uuid4())`, a 128-bit random token), and the fixed extension
`.jpg`; the S3 put and the inserted row both carry exactly that key,
and the row carries the entered user id and the original local
filename. -/
theorem upload_key_composition (e : UploadEnv) (u : UserRow)
    (hf : e.fileExists = true) (hu : e.userLookup = .row u) :
    (upload e).calls = [.queryUser e.userId,
      .s3Upload e.localName (u.bucketfolder ++ "/" ++ e.token ++ ".jpg"),
      .insertAsset e.userId e.localName (u.bucketfolder ++ "/" ++ e.token ++ ".jpg"),
      .queryLastId] :=
  upload_calls_of_row e u hf hu

/-- C5 witness: the key composed for `sampleUser` is
`folder7/tok.jpg`. -/
theorem upload_key_composition_witness :
    (upload envGoodUpload).calls = [.queryUser envGoodUpload.userId,
      .s3Upload envGoodUpload.localName
        (sampleUser.bucketfolder ++ "/" ++ envGoodUpload.token ++ ".jpg"),
      .insertAsset envGoodUpload.userId envGoodUpload.localName
        (sampleUser.bucketfolder ++ "/" ++ envGoodUpload.token ++ ".jpg"),
      .queryLastId] :=
  upload_key_composition envGoodUpload sampleUser rfl (by decide)

/-- C7: the dispatcher's step relation: command 0 terminates the loop;
a command in 1–7 enters the corresponding handler and returns to the
awaiting state on completion; every other integer stays awaiting after
only the unknown-command message, with no storage or database call. -/
theorem dispatcher_step_relation (cmd : Int) :
    (cmd = 0 → step .awaiting cmd = .terminated ∧ dispatchBody cmd = .exits) ∧
    (1 ≤ cmd → cmd ≤ 7 →
      step .awaiting cmd = .running cmd ∧
      (∃ h, dispatchBody cmd = .runs h) ∧
      completeHandler (.running cmd) = .awaiting) ∧
    (cmd ≠ 0 → ¬(1 ≤ cmd ∧ cmd ≤ 7) →
      step .awaiting cmd = .awaiting ∧
      dispatchBody cmd = .unknown unknownCmdResult ∧
      unknownCmdResult.calls = [] ∧
      unknownCmdResult.log = [msgUnknownCmd] ∧
      unknownCmdResult.outcome = .normal) := by
  refine ⟨?_, ?_, ?_⟩
  · rintro rfl
    exact ⟨by decide, by decide⟩
  · intro hlo hhi
    interval_cases cmd
    · exact ⟨by decide, ⟨.stats, by decide⟩, rfl⟩
    · exact ⟨by decide, ⟨.users, by decide⟩, rfl⟩
    · exact ⟨by decide, ⟨.assets, by decide⟩, rfl⟩
    · exact ⟨by decide, ⟨.download, by decide⟩, rfl⟩
    · exact ⟨by decide, ⟨.downloadDisplay, by decide⟩, rfl⟩
    · exact ⟨by decide, ⟨.upload, by decide⟩, rfl⟩
    · exact ⟨by decide, ⟨.adduser, by decide⟩, rfl⟩
  · intro h0 hrange
    have h1 : cmd ≠ 1 := by intro h; exact hrange ⟨by omega, by omega⟩
    have h2 : cmd ≠ 2 := by intro h; exact hrange ⟨by omega, by omega⟩
    have h3 : cmd ≠ 3 := by intro h; exact hrange ⟨by omega, by omega⟩
    have h4 : cmd ≠ 4 := by intro h; exact hrange ⟨by omega, by omega⟩
    have h5 : cmd ≠ 5 := by intro h; exact hrange ⟨by omega, by omega⟩
    have h6 : cmd ≠ 6 := by intro h; exact hrange ⟨by omega, by omega⟩
    have h7 : cmd ≠ 7 := by intro h; exact hrange ⟨by omega, by omega⟩
    have hsel : selectHandler cmd = none := by
      simp [selectHandler, h1, h2, h3, h4, h5, h6, h7]
    refine ⟨?_, ?_, rfl, rfl, rfl⟩
    · simp [step, h0, hsel]
    · simp [dispatchBody, h0, hsel]

/-- C7 witness at the concrete commands 0, 5 and 9. -/
theorem dispatcher_step_relation_witness :
    (step .awaiting 0 = .terminated ∧ dispatchBody 0 = .exits) ∧
    (step .awaiting 5 = .running 5 ∧ (∃ h, dispatchBody 5 = .runs h) ∧
      completeHandler (.running 5) = .awaiting) ∧
    (step .awaiting 9 = .awaiting ∧ dispatchBody 9 = .unknown unknownCmdResult ∧
      unknownCmdResult.calls = [] ∧ unknownCmdResult.log = [msgUnknownCmd] ∧
      unknownCmdResult.outcome = .normal) :=
  ⟨(dispatcher_step_relation 0).1 rfl,
   (dispatcher_step_relation 5).2.1 (by decide) (by decide),
   (dispatcher_step_relation 9).2.2 (by decide) (by decide)⟩

/-- C8: a prompt line that does not parse as an integer makes
`int(input())` raise an uncaught `ValueError` and the process
terminates — the dispatcher never treats it as an unrecognized command —
so the unknown-command recovery path is reached only for integer
inputs. -/
theorem prompt_noninteger_uncaught :
    (pyInt "hello" = none ∧ loopIteration "hello" = .error "ValueError") ∧
    (∀ line : String, pyInt line = none →
      loopIteration line = .error "ValueError" ∧
      ∀ st : LoopState, loopIteration line ≠ .ok st) ∧
    (∀ (line : String) (st : LoopState), loopIteration line = .ok st →
      ∃ n : Int, pyInt line = some n) := by
  refine ⟨⟨by decide, rfl⟩, ?_, ?_⟩
  · intro line h
    constructor
    · simp [loopIteration, prompt, h, Except.map]
    · intro st hst
      simp [loopIteration, prompt, h, Except.map] at hst
  · intro line st hst
    cases hp : pyInt line with
    | none => simp [loopIteration, prompt, hp, Except.map] at hst
    | some n => exact ⟨n, rfl⟩

/-- C8 witness at the concrete non-integer line `"abc"`. -/
theorem prompt_noninteger_uncaught_witness :
    loopIteration "abc" = .error "ValueError" ∧
    ∀ st : LoopState, loopIteration "abc" ≠ .ok st :=
  prompt_noninteger_uncaught.2.1 "abc" (by decide)

/-- C9: `upload` and `adduser` never inspect the result of their
insert: their entire behaviour is unchanged by it, the last-insert-id
re-query is always made on the insert path, and in `upload`, if that
re-query returns the absent sentinel, indexing `row3[0]` raises an
uncaught exception (and when it returns a row, an id is printed). -/
theorem insert_result_ignored_lastid_requeried :
    (∀ (e : UploadEnv) (r r' : Option Int),
      upload { e with insertResult := r } = upload { e with insertResult := r' }) ∧
    (∀ (ae : AddUserEnv) (r r' : Option Int),
      adduser { ae with insertResult := r } = adduser { ae with insertResult := r' }) ∧
    (∀ (e : UploadEnv) (u : UserRow), e.fileExists = true → e.userLookup = .row u →
      Call.queryLastId ∈ (upload e).calls ∧
      (e.lastIdLookup = .absent → (upload e).outcome = .exception) ∧
      (∀ n : Int, e.lastIdLookup = .row n →
        ("Recorded in RDS under asset id " ++ toString n) ∈ (upload e).log)) ∧
    (∀ ae : AddUserEnv,
      Call.queryLastId ∈ (adduser ae).calls ∧
      (ae.lastIdLookup = .absent → (adduser ae).outcome = .exception) ∧
      (∀ n : Int, ae.lastIdLookup = .row n →
        ("Recorded in RDS under asset id " ++ toString n) ∈ (adduser ae).log)) := by
  refine ⟨?_, ?_, ?_, ?_⟩
  · intro e r r'
    cases e
    rfl
  · intro ae r r'
    cases ae
    rfl
  · intro e u hf hu
    refine ⟨?_, ?_, ?_⟩
    · rw [upload_calls_of_row e u hf hu]
      simp
    · intro h
      simp [upload, hf, hu, h]
    · intro n h
      simp [upload, hf, hu, h]
  · intro ae
    refine ⟨?_, ?_, ?_⟩
    · cases h : ae.lastIdLookup <;> simp [adduser, h]
    · intro h
      simp [adduser, h]
    · intro n h
      simp [adduser, h]

/-- C9 witness: insert-result independence and the last-id re-query at
a concrete successful upload environment. -/
theorem insert_result_ignored_lastid_requeried_witness :
    (upload { envGoodUpload with insertResult := none } =
      upload { envGoodUpload with insertResult := some 1 }) ∧
    Call.queryLastId ∈ (upload envGoodUpload).calls ∧
    ("Recorded in RDS under asset id " ++ toString (12 : Int))
      ∈ (upload envGoodUpload).log :=
  ⟨insert_result_ignored_lastid_requeried.1 envGoodUpload none (some 1),
   (insert_result_ignored_lastid_requeried.2.2.1 envGoodUpload sampleUser
      rfl (by decide)).1,
   (insert_result_ignored_lastid_requeried.2.2.1 envGoodUpload sampleUser
      rfl (by decide)).2.2 12 rfl⟩

/-- C10: a successful download fetches the object to a temporary file
and renames it to the asset's original filename with `os.rename`,
silently replacing any existing file of that name in the working
directory; downloading two assets sharing an original filename leaves
only the later content at that name. -/
theorem download_rename_overwrites (fs : FS) (e : DownloadEnv) (k n : String)
    (hlook : e.assetLookup = .row (k, n)) :
    ((download e fs).1.outcome = .normal ∧
     fsLookup (download e fs).2 n = some e.objectContent) ∧
    (∀ (e2 : DownloadEnv) (k2 : String), e2.assetLookup = .row (k2, n) →
      fsLookup (download e2 (download e fs).2).2 n = some e2.objectContent) := by
  constructor
  · constructor
    · simp [download, hlook]
    · simp only [download, hlook]
      exact osRename_after_write fs e.tempName n e.objectContent
  · intro e2 k2 h2
    simp only [download, hlook, h2]
    exact osRename_after_write _ e2.tempName n e2.objectContent

/-- C10 witness: two concrete downloads both named `photo.jpg`, over a
filesystem that already holds an old `photo.jpg`; the later content is
what remains. -/
theorem download_rename_overwrites_witness :
    fsLookup (download envDl2 (download envDl1 fsStart).2).2 "photo.jpg" =
      some envDl2.objectContent :=
  (download_rename_overwrites fsStart envDl1 "folder7/def.jpg" "photo.jpg" rfl).2
    envDl2 "folder9/x.jpg" rfl

end PhotoApp
